import Mathlib

/-!
Shallow embedding of the PrivateAIM node-result-service core:
the crypto engine (src/project/crypto.py), the credential cache
(src/project/hub.py), the relay handlers (src/project/routers/intermediate.py,
src/project/routers/final.py) and the local storage router
(src/project/routers/local.py).

External collaborators (the ECDH/AES-GCM primitives of the cryptography
library, the hub REST services, the object store) are modelled from the
interface contracts stated in the specification; everything else is
translated directly from the Python source.
-/

namespace NodeResultService

/-- A byte string, each element intended to be a value below 256. -/
abbrev Bytes := List Nat

/-- Translated from src/project/crypto.py: BITS_PER_BYTE. -/
def BITS_PER_BYTE : Nat := 8

/-- Translated from src/project/crypto.py: DEFAULT_IV_BIT_SIZE. -/
def DEFAULT_IV_BIT_SIZE : Nat := 96

/-- Translated from src/project/crypto.py: DEFAULT_SHARED_SECRET_BIT_SIZE. -/
def DEFAULT_SHARED_SECRET_BIT_SIZE : Nat := 256

/-- Big-endian encoding of a natural number into a fixed number of bytes. -/
def natToBytes (len x : Nat) : Bytes :=
  (List.range len).map (fun i => x / 256 ^ (len - 1 - i) % 256)

/-- Modelled from the spec: a named elliptic curve (P-256/P-384 class) used
for ECDH key agreement, represented by its cyclic group of points written
additively as residues modulo the group modulus. A private key is a scalar,
a point is a residue, and the raw agreed secret is the fixed-width byte
encoding of the shared point. The field rawSecretLen is the byte length of
the raw agreed secret (32 for the P-256 class). -/
structure Curve where
  modulus : Nat
  generator : Nat
  rawSecretLen : Nat
deriving DecidableEq

/-- Modelled from the spec: scalar multiplication of the base point, mapping
a private scalar to its public point. A key pair (sk, pk) is valid exactly
when pk = Curve.point sk. -/
def Curve.point (C : Curve) (sk : Nat) : Nat :=
  (sk * C.generator) % C.modulus

/-- Modelled from the spec: the raw ECDH key agreement
(private_key.exchange of the cryptography library), combining a private
scalar with a peer public point and encoding the shared point as bytes. -/
def Curve.rawSharedSecret (C : Curve) (sk pk : Nat) : Bytes :=
  natToBytes C.rawSecretLen ((sk * pk) % C.modulus)

/-- Translated from src/project/crypto.py: exchange_ecdh_shared_secret,
instrumented with a flag recording whether the underlying key agreement was
performed. The bit size check happens before the key agreement; a bit size
outside 256 and 384 raises a ValueError without performing the agreement. -/
def exchange_ecdh_shared_secret_traced (C : Curve) (sk pk : Nat) (bit_size : Nat) :
    Except String Bytes × Bool :=
  if bit_size = 256 ∨ bit_size = 384 then
    (.ok ((C.rawSharedSecret sk pk).take (bit_size / BITS_PER_BYTE)), true)
  else
    (.error "size of secret key must be either 256 or 384 bits", false)

/-- Translated from src/project/crypto.py: exchange_ecdh_shared_secret. -/
def exchange_ecdh_shared_secret (C : Curve) (sk pk : Nat) (bit_size : Nat) :
    Except String Bytes :=
  (exchange_ecdh_shared_secret_traced C sk pk bit_size).1

/-- Modelled from the spec: the AES-GCM keystream of the cryptography
library, as a deterministic byte stream derived from the shared secret and
the initialization vector. -/
def keystreamByte (secret iv : Bytes) (i : Nat) : Nat :=
  (secret.foldl (fun a b => a * 131 + b) 5 + iv.foldl (fun a b => a * 137 + b) 9 + 31 * i) % 256

/-- Modelled from the spec: a keystream of the requested length. -/
def keystream (secret iv : Bytes) (len : Nat) : Bytes :=
  (List.range len).map (keystreamByte secret iv)

/-- Byte length of the AES-GCM authentication tag. -/
def GCM_TAG_LEN : Nat := 16

/-- Modelled from the spec: the AES-GCM authentication tag over the
ciphertext body and the associated data under the given secret and IV. -/
def auth_tag (secret iv body aad : Bytes) : Bytes :=
  natToBytes GCM_TAG_LEN ((secret ++ iv ++ body ++ aad).foldl (fun a b => a * 251 + b + 1) 3)

/-- Translated from src/project/crypto.py: encrypt_aesgcm, over the AES-GCM
model above. The output is the ciphertext body followed by the 16 byte tag. -/
def encrypt_aesgcm (shared_secret iv data associated_data : Bytes) : Bytes :=
  let body := List.zipWith Nat.xor data (keystream shared_secret iv data.length)
  body ++ auth_tag shared_secret iv body associated_data

/-- Translated from src/project/crypto.py: decrypt_aesgcm, over the AES-GCM
model above. Fails with an authentication error when the tag does not
verify. -/
def decrypt_aesgcm (shared_secret iv data associated_data : Bytes) : Except String Bytes :=
  if data.length < GCM_TAG_LEN then
    .error "AuthenticationFailed"
  else
    let body := data.take (data.length - GCM_TAG_LEN)
    let tag := data.drop (data.length - GCM_TAG_LEN)
    if tag = auth_tag shared_secret iv body associated_data then
      .ok (List.zipWith Nat.xor body (keystream shared_secret iv body.length))
    else
      .error "AuthenticationFailed"

/-- Translated from src/project/crypto.py: split_iv_from_data. -/
def split_iv_from_data (data : Bytes) (iv_bit_size : Nat) : Bytes × Bytes :=
  let iv_byte_size := iv_bit_size / BITS_PER_BYTE
  (data.take iv_byte_size, data.drop iv_byte_size)

/-- Translated from src/project/crypto.py: random_iv. The entropy source
(os.urandom) is passed explicitly; the result is 12 bytes long. -/
def random_iv (entropy : Nat → Nat) : Bytes :=
  (List.range (DEFAULT_IV_BIT_SIZE / BITS_PER_BYTE)).map (fun i => entropy i % 256)

/-- Translated from src/project/crypto.py: encrypt_default. Derives the
shared secret with the default 256 bit size, draws a random 12 byte IV and
prepends it to the AES-GCM ciphertext. -/
def encrypt_default (C : Curve) (private_key public_key : Nat) (entropy : Nat → Nat)
    (data : Bytes) : Except String Bytes :=
  match exchange_ecdh_shared_secret C private_key public_key DEFAULT_SHARED_SECRET_BIT_SIZE with
  | .error e => .error e
  | .ok shared_secret =>
      let iv := random_iv entropy
      .ok (iv ++ encrypt_aesgcm shared_secret iv data [])

/-- Translated from src/project/crypto.py: decrypt_default. Derives the
shared secret with swapped key roles, splits the leading 12 IV bytes off
and decrypts the remainder. -/
def decrypt_default (C : Curve) (private_key public_key : Nat) (data : Bytes) :
    Except String Bytes :=
  match exchange_ecdh_shared_secret C private_key public_key DEFAULT_SHARED_SECRET_BIT_SIZE with
  | .error e => .error e
  | .ok shared_secret =>
      let p := split_iv_from_data data DEFAULT_IV_BIT_SIZE
      decrypt_aesgcm shared_secret p.1 p.2 []

/-- Translated from src/project/hub.py: the AccessToken model. -/
structure AccessToken where
  access_token : String
  expires_in : Int
  token_type : String
  scope : String
  refresh_token : Option String
deriving DecidableEq

/-- Translated from src/project/hub.py: the mutable token slot of
BaseAuthClient (current_access_token and current_access_token_expires_at). -/
structure AuthClientState where
  current_access_token : Option AccessToken
  current_access_token_expires_at : Int
deriving DecidableEq

/-- Translated from src/project/hub.py: the initial state set in
BaseAuthClient.__init__ (no token, expiry 0). -/
def initialAuthClientState : AuthClientState :=
  { current_access_token := none, current_access_token_expires_at := 0 }

/-- Translated from src/project/hub.py: acquire_token of the robot and
password auth clients. The issuer response (the outcome of the HTTP POST to
the token endpoint followed by raise_for_status) is passed explicitly: a
non-success status raises before the token slot is assigned, so the state
is only replaced on success. -/
def acquire_token (_st : AuthClientState) (now : Int)
    (issuer_response : Except String AccessToken) : Except String AuthClientState :=
  match issuer_response with
  | .error e => .error e
  | .ok tok =>
      .ok { current_access_token := some tok,
            current_access_token_expires_at := now + tok.expires_in }

/-- Translated from src/project/hub.py: format_auth_header. Reading the
token of an empty slot would fail in Python; this is modelled as an error. -/
def format_auth_header (st : AuthClientState) : Except String String :=
  match st.current_access_token with
  | none => .error "AttributeError"
  | some tok => .ok ("Bearer " ++ tok.access_token)

/-- Translated from src/project/hub.py: BaseAuthClient.get_auth_header.
Returns the Authorization header value, the state of the token slot after
the call, and the number of token acquisitions (issuer round trips)
performed during the call. -/
def get_auth_header (leeway : Int) (st : AuthClientState) (now : Int)
    (issuer_response : Except String AccessToken) :
    Except String String × AuthClientState × Nat :=
  if st.current_access_token = none ∨ st.current_access_token_expires_at < now + leeway then
    match acquire_token st now issuer_response with
    | .error e => (.error e, st, 1)
    | .ok st2 => (format_auth_header st2, st2, 1)
  else
    (format_auth_header st, st, 0)

/-- Translated from src/project/hub.py: the default
token_expiration_leeway_seconds of BaseAuthClient. -/
def DEFAULT_TOKEN_EXPIRATION_LEEWAY_SECONDS : Int := 60

/-- An HTTP error response raised by a route handler. -/
structure HttpError where
  status_code : Nat
  detail : String
deriving DecidableEq

/-- Translated from src/project/hub.py: the AnalysisBucket model, reduced
to the fields the relay handlers read. -/
structure AnalysisBucket where
  id : Nat
  external_id : Nat
deriving DecidableEq

/-- Translated from src/project/hub.py: the BucketFile model, reduced to
the fields the relay handlers read. -/
structure BucketFile where
  id : Nat
  name : String
deriving DecidableEq

/-- Modelled from the spec: a hub node record as returned by get_node, with
its optional published public key given directly as a point of the model
curve. -/
structure RemoteNode where
  public_key : Option Nat
deriving DecidableEq

/-- The remote calls a relay handler can make, in the order they appear in
its trace. -/
inductive RemoteCall where
  | findAnalysisBuckets
  | getNode
  | uploadToBucket
  | createAnalysisBucketFile
deriving DecidableEq

/-- The environment of one run of the intermediate submission handler: the
responses of the external hub services. -/
structure IntermediateEnv where
  analysis_buckets : List AnalysisBucket
  node : RemoteNode
  upload_result : Except String (List BucketFile)

/-- Translated from src/project/routers/intermediate.py: the upload and
link tail of submit_intermediate_result_to_hub (from upload_to_bucket to
create_analysis_bucket_file). -/
def upload_and_link (env : IntermediateEnv) (trace : List RemoteCall) :
    Except HttpError Nat × List RemoteCall :=
  match env.upload_result with
  | .error e => (.error ⟨500, e⟩, trace ++ [.uploadToBucket])
  | .ok bucket_file_lst =>
      match bucket_file_lst with
      | [bucket_file] =>
          (.ok bucket_file.id, trace ++ [.uploadToBucket, .createAnalysisBucketFile])
      | _ =>
          (.error ⟨502, "Expected single uploaded file to be returned by storage service, got " ++
              toString bucket_file_lst.length⟩,
           trace ++ [.uploadToBucket])

/-- Translated from src/project/routers/intermediate.py:
submit_intermediate_result_to_hub. Returns the handler outcome (the id of
the linked bucket file on success) together with the trace of remote calls
made, in order. -/
def submit_intermediate_result_to_hub (C : Curve) (private_key : Nat) (entropy : Nat → Nat)
    (client_id : String) (env : IntermediateEnv) (file_content : Bytes)
    (remote_node_id : Option String) : Except HttpError Nat × List RemoteCall :=
  if env.analysis_buckets.length = 0 then
    (.error ⟨404, "Temp bucket for analysis with ID " ++ client_id ++ " was not found"⟩,
     [.findAnalysisBuckets])
  else
    match remote_node_id with
    | none => upload_and_link env [.findAnalysisBuckets]
    | some rid =>
        match env.node.public_key with
        | none =>
            (.error ⟨400, "Remote node with ID " ++ rid ++ " does not provide a public key"⟩,
             [.findAnalysisBuckets, .getNode])
        | some remote_public_key =>
            match encrypt_default C private_key remote_public_key entropy file_content with
            | .error e => (.error ⟨500, e⟩, [.findAnalysisBuckets, .getNode])
            | .ok _sealed => upload_and_link env [.findAnalysisBuckets, .getNode]

/-- The steps of the final-result background relay, in the order they
appear in its trace. -/
inductive BgStep where
  | getObject
  | getAnalysisBucket
  | uploadToBucket
  | linkBucketFile
  | removeObject
deriving DecidableEq

/-- A locally stored object as returned by the object store. -/
structure MinioObject where
  data : Bytes
  content_type : String
deriving DecidableEq

/-- The environment of one run of the background relay: the responses of
the local object store and the hub services, step by step. -/
structure BgEnv where
  get_object : Except String MinioObject
  get_analysis_bucket_fst : Except String (Option AnalysisBucket)
  upload_result : Except String (List BucketFile)
  get_analysis_bucket_snd : Except String (Option AnalysisBucket)
  link_result : Except String Unit

/-- Translated from src/project/routers/final.py: __bg_upload_to_remote.
Returns the outcome of the background task (an error models an uncaught
exception) together with the trace of steps performed, in order. The local
object is removed only as the last step, after a successful link. -/
def bg_upload_to_remote (env : BgEnv) : Except String Unit × List BgStep :=
  match env.get_object with
  | .error e => (.error e, [.getObject])
  | .ok _minio_resp =>
      match env.get_analysis_bucket_fst with
      | .error e => (.error e, [.getObject, .getAnalysisBucket])
      | .ok none =>
          (.error "AttributeError: NoneType object has no attribute external_id",
           [.getObject, .getAnalysisBucket])
      | .ok (some _analysis_bucket) =>
          match env.upload_result with
          | .error e => (.error e, [.getObject, .getAnalysisBucket, .uploadToBucket])
          | .ok bucket_file_lst =>
              if bucket_file_lst.length = 1 then
                match env.get_analysis_bucket_snd with
                | .error e =>
                    (.error e,
                     [.getObject, .getAnalysisBucket, .uploadToBucket, .getAnalysisBucket])
                | .ok none =>
                    (.error "AttributeError: NoneType object has no attribute id",
                     [.getObject, .getAnalysisBucket, .uploadToBucket, .getAnalysisBucket])
                | .ok (some _ab2) =>
                    match env.link_result with
                    | .error e =>
                        (.error e,
                         [.getObject, .getAnalysisBucket, .uploadToBucket, .getAnalysisBucket,
                          .linkBucketFile])
                    | .ok _ =>
                        (.ok (),
                         [.getObject, .getAnalysisBucket, .uploadToBucket, .getAnalysisBucket,
                          .linkBucketFile, .removeObject])
              else
                (.error "AssertionError",
                 [.getObject, .getAnalysisBucket, .uploadToBucket])

/-- Translated from src/project/routers/local.py: the object store key
written by submit_intermediate_result_to_local and read by
retrieve_intermediate_result_from_local, the f-string
local/{client_id}/{object_id}. -/
def local_object_key (client_id object_id : List Char) : List Char :=
  "local/".toList ++ client_id ++ ('/' :: object_id)

/-- A locally stored result object. -/
structure StoredObject where
  data : Bytes
  content_type : String
deriving DecidableEq

/-- Translated from src/project/routers/local.py:
retrieve_intermediate_result_from_local. The object store is a partial map
from keys to objects; a missing key is the NoSuchKey case of the S3 error
handler and yields a 404. -/
def retrieve_intermediate_result_from_local (store : List Char → Option StoredObject)
    (client_id object_id : List Char) : Except HttpError StoredObject :=
  match store (local_object_key client_id object_id) with
  | none =>
      .error ⟨404, "Object with ID " ++ String.mk object_id ++ " does not exist"⟩
  | some obj => .ok obj

/-- Translated from src/project/routers/local.py: the effect of
submit_intermediate_result_to_local (minio.put_object) on the object store,
writing the uploaded object under the key built from the caller identity
and the fresh object id. -/
def store_after_local_submit (store : List Char → Option StoredObject)
    (client_id object_id : List Char) (obj : StoredObject) :
    List Char → Option StoredObject :=
  fun k => if k = local_object_key client_id object_id then some obj else store k

/-- Translated from src/project/routers/local.py: the character class
[a-z0-9] of the tag pattern. -/
def isLowerAlnum (c : Char) : Bool :=
  (decide ('a' ≤ c) && decide (c ≤ 'z')) || (decide ('0' ≤ c) && decide (c ≤ '9'))

/-- Translated from src/project/routers/local.py: the character class
[a-z0-9-] of the tag pattern. -/
def isLowerAlnumOrHyphen (c : Char) : Bool :=
  isLowerAlnum c || decide (c = '-')

/-- Translated from src/project/routers/local.py: the first alternative
[a-z0-9]{1,2} of the tag pattern as a full match: one or two characters,
all in [a-z0-9]. -/
def tag_alt_short (t : List Char) : Bool :=
  decide (1 ≤ t.length) && decide (t.length ≤ 2) && t.all isLowerAlnum

/-- Translated from src/project/routers/local.py: the second alternative
[a-z0-9][a-z0-9-]{,30}[a-z0-9] of the tag pattern as a full match: a
character in [a-z0-9], then at most 30 characters in [a-z0-9-], then a
character in [a-z0-9]. -/
def tag_alt_long (t : List Char) : Bool :=
  match t with
  | [] => false
  | c :: rest =>
      match rest.getLast? with
      | none => false
      | some d =>
          isLowerAlnum c && isLowerAlnum d &&
            rest.dropLast.all isLowerAlnumOrHyphen && decide (rest.dropLast.length ≤ 30)

/-- Translated from src/project/routers/local.py: is_valid_tag, the full
match of the alternation of the two branches of _TAG_PATTERN. -/
def is_valid_tag (t : List Char) : Bool :=
  tag_alt_short t || tag_alt_long t

/-- The local writes the local submission handler can perform, in the order
they appear in its trace: the object store write and the three tag index
writes. -/
inductive LocalWrite where
  | putObject
  | tagGetOrCreate
  | resultCreate
  | taggedResultCreate
deriving DecidableEq

/-- The environment of one run of the local submission handler: the project
id resolved for the calling analysis, if the analysis exists. -/
structure LocalEnv where
  project_id : Option String
deriving DecidableEq

/-- Translated from src/project/routers/local.py:
submit_intermediate_result_to_local, reduced to its validation and write
behavior. Returns the handler outcome together with the trace of local
writes performed, in order: the tag is validated before the object store
write, and the tag index writes happen only for a valid tag after the
object store write. -/
def submit_intermediate_result_to_local (tag : Option (List Char)) (env : LocalEnv) :
    Except HttpError Unit × List LocalWrite :=
  match tag with
  | none => (.ok (), [.putObject])
  | some t =>
      if is_valid_tag t then
        match env.project_id with
        | none =>
            (.error ⟨404, "Analysis not found"⟩, [.putObject])
        | some _pid =>
            (.ok (), [.putObject, .tagGetOrCreate, .resultCreate, .taggedResultCreate])
      else
        (.error ⟨400, "Invalid tag `" ++ String.mk t ++ "`"⟩, [])

/-- Modelled from the spec: the tag shape accepted by the local submission
endpoint, as the specification describes it: either one or two lowercase
alphanumeric characters, or 2 to 32 characters that start and end with a
lowercase alphanumeric character and contain only lowercase alphanumeric
characters and hyphens in between. Stated over character positions; to be
compared with the is_valid_tag function translated from the source. -/
def specTagShape (t : List Char) : Prop :=
  (1 ≤ t.length ∧ t.length ≤ 2 ∧ ∀ c ∈ t, isLowerAlnum c = true) ∨
  (2 ≤ t.length ∧ t.length ≤ 32 ∧
    ∀ i : Fin t.length,
      ((i.val = 0 ∨ i.val = t.length - 1) → isLowerAlnum (t.get i) = true) ∧
      (0 < i.val → i.val < t.length - 1 →
        (isLowerAlnum (t.get i) = true ∨ t.get i = '-')))

/-! Helper lemmas. -/

theorem length_natToBytes (len x : Nat) : (natToBytes len x).length = len := by
  simp [natToBytes]

theorem length_keystream (s iv : Bytes) (n : Nat) : (keystream s iv n).length = n := by
  simp [keystream]

theorem length_random_iv (entropy : Nat → Nat) : (random_iv entropy).length = 12 := by
  simp [random_iv, DEFAULT_IV_BIT_SIZE, BITS_PER_BYTE]

theorem length_auth_tag (s iv body aad : Bytes) : (auth_tag s iv body aad).length = 16 := by
  simp [auth_tag, length_natToBytes, GCM_TAG_LEN]

theorem zipWith_xor_cancel (m : List Nat) : ∀ ks : List Nat, ks.length = m.length →
    List.zipWith Nat.xor (List.zipWith Nat.xor m ks) ks = m := by
  induction m with
  | nil => intro ks _; simp
  | cons a m ih =>
      intro ks h
      cases ks with
      | nil => simp at h
      | cons k ks =>
          simp only [List.zipWith_cons_cons]
          rw [show Nat.xor (Nat.xor a k) k = a from Nat.xor_cancel_right k a,
            ih ks (by simpa using h)]

theorem length_encrypt_aesgcm (s iv m aad : Bytes) :
    (encrypt_aesgcm s iv m aad).length = m.length + 16 := by
  simp [encrypt_aesgcm, List.length_zipWith, length_keystream, length_auth_tag]

theorem decrypt_encrypt_aesgcm (s iv m aad : Bytes) :
    decrypt_aesgcm s iv (encrypt_aesgcm s iv m aad) aad = .ok m := by
  have hks : (keystream s iv m.length).length = m.length := length_keystream ..
  have hbody : (List.zipWith Nat.xor m (keystream s iv m.length)).length = m.length := by
    rw [List.length_zipWith, hks, Nat.min_self]
  simp only [encrypt_aesgcm, decrypt_aesgcm, GCM_TAG_LEN]
  rw [List.length_append, hbody, length_auth_tag]
  rw [if_neg (by omega), Nat.add_sub_cancel]
  rw [List.take_left' hbody, List.drop_left' hbody]
  rw [if_pos rfl, hbody, zipWith_xor_cancel m _ hks]

theorem rawSharedSecret_comm (C : Curve) (a b : Nat) :
    C.rawSharedSecret a (C.point b) = C.rawSharedSecret b (C.point a) := by
  unfold Curve.rawSharedSecret Curve.point
  congr 1
  have h1 : a * (b * C.generator % C.modulus) % C.modulus =
      a * (b * C.generator) % C.modulus :=
    Nat.ModEq.mul_left a (Nat.mod_modEq _ _)
  have h2 : b * (a * C.generator % C.modulus) % C.modulus =
      b * (a * C.generator) % C.modulus :=
    Nat.ModEq.mul_left b (Nat.mod_modEq _ _)
  rw [h1, h2, show a * (b * C.generator) = b * (a * C.generator) by ring]

theorem exchange_default_ok (C : Curve) (sk pk : Nat) :
    exchange_ecdh_shared_secret C sk pk DEFAULT_SHARED_SECRET_BIT_SIZE =
      .ok ((C.rawSharedSecret sk pk).take 32) := by
  simp [exchange_ecdh_shared_secret, exchange_ecdh_shared_secret_traced,
    DEFAULT_SHARED_SECRET_BIT_SIZE, BITS_PER_BYTE]

/-! Claim theorems. -/

/-- C1: for every plaintext and every pair of valid key pairs on the same
curve, decrypting with the recipient private key and the sender public key
the output of encrypt_default yields exactly the plaintext, and the
produced ciphertext is never equal to the plaintext. -/
theorem encrypt_decrypt_default_roundtrip (C : Curve) (skA skB pkA pkB : Nat)
    (entropy : Nat → Nat) (m : Bytes)
    (hA : pkA = C.point skA) (hB : pkB = C.point skB) :
    ∃ c, encrypt_default C skA pkB entropy m = .ok c ∧
      decrypt_default C skB pkA c = .ok m ∧ c ≠ m := by
  subst hA hB
  refine ⟨random_iv entropy ++
      encrypt_aesgcm ((C.rawSharedSecret skA (C.point skB)).take 32) (random_iv entropy) m [],
    ?_, ?_, ?_⟩
  · rw [encrypt_default, exchange_default_ok]
  · rw [decrypt_default, exchange_default_ok, rawSharedSecret_comm]
    have hiv : (random_iv entropy).length = 96 / 8 := length_random_iv entropy
    simp only [split_iv_from_data, DEFAULT_IV_BIT_SIZE, BITS_PER_BYTE]
    rw [List.take_left' hiv, List.drop_left' hiv]
    exact decrypt_encrypt_aesgcm ..
  · intro hEq
    have hlen := congrArg List.length hEq
    rw [List.length_append, length_random_iv, length_encrypt_aesgcm] at hlen
    omega

/-- Witness for C1 at a concrete curve, key pair, entropy source and
plaintext. -/
theorem encrypt_decrypt_default_roundtrip_witness :
    ∃ c, encrypt_default ⟨101, 3, 32⟩ 5 (Curve.point ⟨101, 3, 32⟩ 7) (fun i => i)
        [10, 20, 30] = .ok c ∧
      decrypt_default ⟨101, 3, 32⟩ 7 (Curve.point ⟨101, 3, 32⟩ 5) c = .ok [10, 20, 30] ∧
      c ≠ [10, 20, 30] :=
  encrypt_decrypt_default_roundtrip ⟨101, 3, 32⟩ 5 7 _ _ (fun i => i) [10, 20, 30] rfl rfl

/-- C7: the shared secret derivation returns the leading bit_size / 8 bytes
of the raw agreed ECDH secret when the bit size is 256 or 384, and fails
with a ValueError without performing the key agreement for every other bit
size. -/
theorem exchange_ecdh_shared_secret_spec (C : Curve) (sk pk bit_size : Nat) :
    (bit_size = 256 ∨ bit_size = 384 →
      exchange_ecdh_shared_secret_traced C sk pk bit_size =
        (.ok ((C.rawSharedSecret sk pk).take (bit_size / 8)), true)) ∧
    (bit_size ≠ 256 → bit_size ≠ 384 →
      exchange_ecdh_shared_secret_traced C sk pk bit_size =
        (.error "size of secret key must be either 256 or 384 bits", false)) := by
  constructor
  · intro h
    unfold exchange_ecdh_shared_secret_traced
    rw [if_pos h]
    rfl
  · intro h1 h2
    unfold exchange_ecdh_shared_secret_traced
    rw [if_neg (by tauto)]

/-- Witness for C7 at a concrete curve and key pair, with the accepted bit
size 256 and the rejected bit size 100. -/
theorem exchange_ecdh_shared_secret_spec_witness :
    exchange_ecdh_shared_secret_traced ⟨101, 3, 32⟩ 5 7 256 =
      (.ok (((⟨101, 3, 32⟩ : Curve).rawSharedSecret 5 7).take 32), true) ∧
    exchange_ecdh_shared_secret_traced ⟨101, 3, 32⟩ 5 7 100 =
      (.error "size of secret key must be either 256 or 384 bits", false) :=
  ⟨(exchange_ecdh_shared_secret_spec ⟨101, 3, 32⟩ 5 7 256).1 (Or.inl rfl),
   (exchange_ecdh_shared_secret_spec ⟨101, 3, 32⟩ 5 7 100).2 (by decide) (by decide)⟩

/-- C5: with a cached token whose stored expiry is not within the leeway
window of the current time, two back-to-back calls to get_auth_header
return identical Authorization headers, perform no token acquisition, and
leave the token slot unchanged; a call made with no cached token or with an
expiry within the leeway window performs exactly one acquisition. -/
theorem get_auth_header_cache_behavior (leeway now : Int) (st : AuthClientState)
    (tok : AccessToken) (resp1 resp2 : Except String AccessToken)
    (htok : st.current_access_token = some tok)
    (hfresh : ¬ st.current_access_token_expires_at < now + leeway) :
    (get_auth_header leeway st now resp1).1 = .ok ("Bearer " ++ tok.access_token) ∧
    (get_auth_header leeway st now resp1).2.2 = 0 ∧
    (get_auth_header leeway st now resp1).2.1 = st ∧
    (get_auth_header leeway (get_auth_header leeway st now resp1).2.1 now resp2).1 =
      (get_auth_header leeway st now resp1).1 ∧
    (get_auth_header leeway (get_auth_header leeway st now resp1).2.1 now resp2).2.2 = 0 ∧
    (∀ (st2 : AuthClientState) (resp : Except String AccessToken),
      st2.current_access_token = none ∨ st2.current_access_token_expires_at < now + leeway →
      (get_auth_header leeway st2 now resp).2.2 = 1) := by
  have hcond : ¬ (st.current_access_token = none ∨
      st.current_access_token_expires_at < now + leeway) := by
    rw [htok]
    push_neg
    exact ⟨by simp, not_lt.mp hfresh⟩
  have hone : ∀ (st2 : AuthClientState) (resp : Except String AccessToken),
      st2.current_access_token = none ∨ st2.current_access_token_expires_at < now + leeway →
      (get_auth_header leeway st2 now resp).2.2 = 1 := by
    intro st2 resp h
    unfold get_auth_header
    rw [if_pos h]
    cases acquire_token st2 now resp <;> rfl
  have hfst : get_auth_header leeway st now resp1 = (format_auth_header st, st, 0) := by
    unfold get_auth_header
    rw [if_neg hcond]
  have hhdr : format_auth_header st = .ok ("Bearer " ++ tok.access_token) := by
    unfold format_auth_header
    rw [htok]
  refine ⟨?_, ?_, ?_, ?_, ?_, hone⟩
  · rw [hfst, hhdr]
  · rw [hfst]
  · rw [hfst]
  · rw [hfst]
    show (get_auth_header leeway st now resp2).1 = _
    unfold get_auth_header
    rw [if_neg hcond]
  · rw [hfst]
    show (get_auth_header leeway st now resp2).2.2 = 0
    unfold get_auth_header
    rw [if_neg hcond]

/-- Witness for C5 at a concrete fresh cached token and a concrete stale
state. -/
theorem get_auth_header_cache_behavior_witness :
    (get_auth_header 60 ⟨some ⟨"tok", 3600, "bearer", "s", none⟩, 1000⟩ 0
        (.ok ⟨"new", 3600, "bearer", "s", none⟩)).1 = .ok ("Bearer " ++ "tok") ∧
    (get_auth_header 60 ⟨some ⟨"tok", 3600, "bearer", "s", none⟩, 1000⟩ 0
        (.ok ⟨"new", 3600, "bearer", "s", none⟩)).2.2 = 0 ∧
    (get_auth_header 60 ⟨some ⟨"tok", 3600, "bearer", "s", none⟩, 1000⟩ 0
        (.ok ⟨"new", 3600, "bearer", "s", none⟩)).2.1 =
      ⟨some ⟨"tok", 3600, "bearer", "s", none⟩, 1000⟩ ∧
    (get_auth_header 60
        (get_auth_header 60 ⟨some ⟨"tok", 3600, "bearer", "s", none⟩, 1000⟩ 0
          (.ok ⟨"new", 3600, "bearer", "s", none⟩)).2.1 0
        (.ok ⟨"new2", 3600, "bearer", "s", none⟩)).1 =
      (get_auth_header 60 ⟨some ⟨"tok", 3600, "bearer", "s", none⟩, 1000⟩ 0
        (.ok ⟨"new", 3600, "bearer", "s", none⟩)).1 ∧
    (get_auth_header 60
        (get_auth_header 60 ⟨some ⟨"tok", 3600, "bearer", "s", none⟩, 1000⟩ 0
          (.ok ⟨"new", 3600, "bearer", "s", none⟩)).2.1 0
        (.ok ⟨"new2", 3600, "bearer", "s", none⟩)).2.2 = 0 ∧
    (∀ (st2 : AuthClientState) (resp : Except String AccessToken),
      st2.current_access_token = none ∨ st2.current_access_token_expires_at < 0 + 60 →
      (get_auth_header 60 st2 0 resp).2.2 = 1) :=
  get_auth_header_cache_behavior 60 0 ⟨some ⟨"tok", 3600, "bearer", "s", none⟩, 1000⟩
    ⟨"tok", 3600, "bearer", "s", none⟩ (.ok ⟨"new", 3600, "bearer", "s", none⟩)
    (.ok ⟨"new2", 3600, "bearer", "s", none⟩) rfl (by decide)

/-- C6: when the token issuer is unreachable or returns a non-success
status, the acquisition fails with an error and the token slot is left
unchanged: the previously cached token and its stored expiry keep their
prior values. -/
theorem acquire_token_failure_preserves_cache (leeway now : Int) (st : AuthClientState)
    (e : String) :
    acquire_token st now (.error e) = .error e ∧
    (get_auth_header leeway st now (.error e)).2.1 = st ∧
    ((st.current_access_token = none ∨
        st.current_access_token_expires_at < now + leeway) →
      (get_auth_header leeway st now (.error e)).1 = .error e) := by
  refine ⟨rfl, ?_, ?_⟩
  · unfold get_auth_header
    by_cases h : st.current_access_token = none ∨
        st.current_access_token_expires_at < now + leeway
    · rw [if_pos h]
      rfl
    · rw [if_neg h]
  · intro h
    unfold get_auth_header
    rw [if_pos h]
    rfl

/-- Witness for C6 at a concrete stale cached state and a failing issuer. -/
theorem acquire_token_failure_preserves_cache_witness :
    acquire_token ⟨some ⟨"tok", 10, "bearer", "s", none⟩, 30⟩ 0 (.error "503") =
      .error "503" ∧
    (get_auth_header 60 ⟨some ⟨"tok", 10, "bearer", "s", none⟩, 30⟩ 0 (.error "503")).2.1 =
      ⟨some ⟨"tok", 10, "bearer", "s", none⟩, 30⟩ ∧
    ((⟨some ⟨"tok", 10, "bearer", "s", none⟩, 30⟩ : AuthClientState).current_access_token =
        none ∨
      (⟨some ⟨"tok", 10, "bearer", "s", none⟩, 30⟩ : AuthClientState).current_access_token_expires_at <
        0 + 60 →
      (get_auth_header 60 ⟨some ⟨"tok", 10, "bearer", "s", none⟩, 30⟩ 0 (.error "503")).1 =
        .error "503") :=
  acquire_token_failure_preserves_cache 60 0 ⟨some ⟨"tok", 10, "bearer", "s", none⟩, 30⟩ "503"

/-- C2 counterexample: with a recipient node that has no published public
key, the intermediate submission does fail with the 400 error, but only
after remote calls (the analysis bucket lookup and the node fetch) have
already been made — the trace of remote calls preceding the failure is not
empty, so the failure does not occur before any remote call. -/
theorem submit_intermediate_missing_key_counterexample :
    (submit_intermediate_result_to_hub ⟨101, 3, 32⟩ 5 (fun i => i) "analysisA"
        ⟨[⟨1, 2⟩], ⟨none⟩, .ok [⟨5, "f"⟩]⟩ [1] (some "nodeX")).1 =
      .error ⟨400, "Remote node with ID nodeX does not provide a public key"⟩ ∧
    (submit_intermediate_result_to_hub ⟨101, 3, 32⟩ 5 (fun i => i) "analysisA"
        ⟨[⟨1, 2⟩], ⟨none⟩, .ok [⟨5, "f"⟩]⟩ [1] (some "nodeX")).2 =
      [.findAnalysisBuckets, .getNode] ∧
    (submit_intermediate_result_to_hub ⟨101, 3, 32⟩ 5 (fun i => i) "analysisA"
        ⟨[⟨1, 2⟩], ⟨none⟩, .ok [⟨5, "f"⟩]⟩ [1] (some "nodeX")).2 ≠ [] :=
  ⟨rfl, rfl, by decide⟩

/-- C2 (amended): an intermediate submission whose designated recipient has
no published public key fails with a client-facing 400 error before any
upload call to the storage service is made: the trace contains zero upload
calls, only the bucket lookup and the node fetch. -/
theorem submit_intermediate_missing_key_no_upload (C : Curve) (private_key : Nat)
    (entropy : Nat → Nat) (client_id : String) (env : IntermediateEnv)
    (file_content : Bytes) (rid : String)
    (hbuckets : env.analysis_buckets.length ≠ 0)
    (hkey : env.node.public_key = none) :
    (submit_intermediate_result_to_hub C private_key entropy client_id env file_content
        (some rid)).1 =
      .error ⟨400, "Remote node with ID " ++ rid ++ " does not provide a public key"⟩ ∧
    (submit_intermediate_result_to_hub C private_key entropy client_id env file_content
        (some rid)).2.count .uploadToBucket = 0 ∧
    (submit_intermediate_result_to_hub C private_key entropy client_id env file_content
        (some rid)).2 = [.findAnalysisBuckets, .getNode] := by
  unfold submit_intermediate_result_to_hub
  rw [if_neg hbuckets, hkey]
  exact ⟨rfl, rfl, rfl⟩

/-- Witness for the amended C2 at a concrete environment whose node has no
public key. -/
theorem submit_intermediate_missing_key_no_upload_witness :
    (submit_intermediate_result_to_hub ⟨101, 3, 32⟩ 5 (fun i => i) "analysisB"
        ⟨[⟨1, 2⟩], ⟨none⟩, .ok []⟩ [7] (some "nodeY")).1 =
      .error ⟨400, "Remote node with ID " ++ "nodeY" ++ " does not provide a public key"⟩ ∧
    (submit_intermediate_result_to_hub ⟨101, 3, 32⟩ 5 (fun i => i) "analysisB"
        ⟨[⟨1, 2⟩], ⟨none⟩, .ok []⟩ [7] (some "nodeY")).2.count .uploadToBucket = 0 ∧
    (submit_intermediate_result_to_hub ⟨101, 3, 32⟩ 5 (fun i => i) "analysisB"
        ⟨[⟨1, 2⟩], ⟨none⟩, .ok []⟩ [7] (some "nodeY")).2 =
      [.findAnalysisBuckets, .getNode] :=
  submit_intermediate_missing_key_no_upload ⟨101, 3, 32⟩ 5 (fun i => i) "analysisB"
    ⟨[⟨1, 2⟩], ⟨none⟩, .ok []⟩ [7] "nodeY" (by decide) rfl

/-- C3 counterexample: with an upload step that always fails, the
background relay of a final result performs exactly one upload attempt and
is abandoned immediately with the upload error — the failure is never
retried, contradicting a retry policy of several attempts. -/
theorem bg_upload_no_retry_counterexample :
    (bg_upload_to_remote ⟨.ok ⟨[1], "text/plain"⟩, .ok (some ⟨1, 2⟩), .error "upload failed",
        .ok (some ⟨1, 2⟩), .ok ()⟩).1 = .error "upload failed" ∧
    (bg_upload_to_remote ⟨.ok ⟨[1], "text/plain"⟩, .ok (some ⟨1, 2⟩), .error "upload failed",
        .ok (some ⟨1, 2⟩), .ok ()⟩).2.count .uploadToBucket = 1 ∧
    (bg_upload_to_remote ⟨.ok ⟨[1], "text/plain"⟩, .ok (some ⟨1, 2⟩), .error "upload failed",
        .ok (some ⟨1, 2⟩), .ok ()⟩).2 = [.getObject, .getAnalysisBucket, .uploadToBucket] :=
  ⟨rfl, rfl, rfl⟩

/-- C3 (amended): neither relay variant retries: the background relay
performs at most one upload call and at most one link call, a failing
upload or link step abandons it immediately after the single attempt, and
the synchronous intermediate variant performs at most one upload call. -/
theorem relay_no_retries (env : BgEnv) (C : Curve) (private_key : Nat)
    (entropy : Nat → Nat) (client_id : String) (ienv : IntermediateEnv)
    (file_content : Bytes) (remote_node_id : Option String) :
    (bg_upload_to_remote env).2.count .uploadToBucket ≤ 1 ∧
    (bg_upload_to_remote env).2.count .linkBucketFile ≤ 1 ∧
    (∀ e, env.upload_result = .error e → BgStep.uploadToBucket ∈ (bg_upload_to_remote env).2 →
      (bg_upload_to_remote env).1 = .error e ∧
      (bg_upload_to_remote env).2.count .uploadToBucket = 1) ∧
    (∀ e, env.link_result = .error e → BgStep.linkBucketFile ∈ (bg_upload_to_remote env).2 →
      (bg_upload_to_remote env).1 = .error e ∧
      (bg_upload_to_remote env).2.count .linkBucketFile = 1) ∧
    (submit_intermediate_result_to_hub C private_key entropy client_id ienv file_content
      remote_node_id).2.count .uploadToBucket ≤ 1 := by
  have hcount : ∀ (env2 : IntermediateEnv) (tr : List RemoteCall),
      (upload_and_link env2 tr).2.count .uploadToBucket =
        tr.count .uploadToBucket + 1 := by
    intro env2 tr
    unfold upload_and_link
    cases env2.upload_result with
    | error e => simp [List.count_append]
    | ok lst =>
        rcases lst with _ | ⟨bf, _ | ⟨b2, rest⟩⟩ <;>
          simp [List.count_append, List.count_cons]
  have hsync : (submit_intermediate_result_to_hub C private_key entropy client_id ienv
      file_content remote_node_id).2.count .uploadToBucket ≤ 1 := by
    unfold submit_intermediate_result_to_hub
    by_cases hb : ienv.analysis_buckets.length = 0
    · rw [if_pos hb]; dsimp only; decide
    · rw [if_neg hb]
      cases remote_node_id with
      | none => dsimp only; rw [hcount]; decide
      | some rid =>
          dsimp only
          cases hk : ienv.node.public_key with
          | none => dsimp only; decide
          | some pk =>
              dsimp only
              cases encrypt_default C private_key pk entropy file_content with
              | error e => dsimp only; decide
              | ok sealed => dsimp only; rw [hcount]; decide
  have h1 : (bg_upload_to_remote env).2.count BgStep.uploadToBucket ≤ 1 := by
    unfold bg_upload_to_remote
    cases env.get_object with
    | error e => dsimp only; decide
    | ok o =>
        cases env.get_analysis_bucket_fst with
        | error e => dsimp only; decide
        | ok ob =>
            cases ob with
            | none => dsimp only; decide
            | some ab =>
                cases env.upload_result with
                | error e => dsimp only; decide
                | ok lst =>
                    dsimp only
                    by_cases hl : lst.length = 1
                    · rw [if_pos hl]
                      cases env.get_analysis_bucket_snd with
                      | error e => dsimp only; decide
                      | ok ob2 =>
                          cases ob2 with
                          | none => dsimp only; decide
                          | some ab2 =>
                              cases env.link_result with
                              | error e => dsimp only; decide
                              | ok u => dsimp only; decide
                    · rw [if_neg hl]; dsimp only; decide
  have h2 : (bg_upload_to_remote env).2.count BgStep.linkBucketFile ≤ 1 := by
    unfold bg_upload_to_remote
    cases env.get_object with
    | error e => dsimp only; decide
    | ok o =>
        cases env.get_analysis_bucket_fst with
        | error e => dsimp only; decide
        | ok ob =>
            cases ob with
            | none => dsimp only; decide
            | some ab =>
                cases env.upload_result with
                | error e => dsimp only; decide
                | ok lst =>
                    dsimp only
                    by_cases hl : lst.length = 1
                    · rw [if_pos hl]
                      cases env.get_analysis_bucket_snd with
                      | error e => dsimp only; decide
                      | ok ob2 =>
                          cases ob2 with
                          | none => dsimp only; decide
                          | some ab2 =>
                              cases env.link_result with
                              | error e => dsimp only; decide
                              | ok u => dsimp only; decide
                    · rw [if_neg hl]; dsimp only; decide
  have h3 : ∀ e, env.upload_result = .error e →
      BgStep.uploadToBucket ∈ (bg_upload_to_remote env).2 →
      (bg_upload_to_remote env).1 = .error e ∧
      (bg_upload_to_remote env).2.count .uploadToBucket = 1 := by
    intro e he hm
    unfold bg_upload_to_remote at hm ⊢
    rw [he] at hm ⊢
    cases hgo : env.get_object with
    | error e2 => rw [hgo] at hm; dsimp only at hm; exact absurd hm (by decide)
    | ok o =>
        rw [hgo] at hm
        cases hgb : env.get_analysis_bucket_fst with
        | error e2 => rw [hgb] at hm; dsimp only at hm; exact absurd hm (by decide)
        | ok ob =>
            rw [hgb] at hm
            cases ob with
            | none => dsimp only at hm; exact absurd hm (by decide)
            | some ab => exact ⟨rfl, by dsimp only; decide⟩
  have h4 : ∀ e, env.link_result = .error e →
      BgStep.linkBucketFile ∈ (bg_upload_to_remote env).2 →
      (bg_upload_to_remote env).1 = .error e ∧
      (bg_upload_to_remote env).2.count .linkBucketFile = 1 := by
    intro e he hm
    unfold bg_upload_to_remote at hm ⊢
    rw [he] at hm ⊢
    cases hgo : env.get_object with
    | error e2 => rw [hgo] at hm; dsimp only at hm; exact absurd hm (by decide)
    | ok o =>
        rw [hgo] at hm
        cases hgb : env.get_analysis_bucket_fst with
        | error e2 => rw [hgb] at hm; dsimp only at hm; exact absurd hm (by decide)
        | ok ob =>
            rw [hgb] at hm
            cases ob with
            | none => dsimp only at hm; exact absurd hm (by decide)
            | some ab =>
                cases hup : env.upload_result with
                | error e2 => rw [hup] at hm; dsimp only at hm; exact absurd hm (by decide)
                | ok lst =>
                    rw [hup] at hm
                    dsimp only at hm ⊢
                    by_cases hl : lst.length = 1
                    · rw [if_pos hl] at hm ⊢
                      cases hgb2 : env.get_analysis_bucket_snd with
                      | error e2 =>
                          rw [hgb2] at hm; dsimp only at hm; exact absurd hm (by decide)
                      | ok ob2 =>
                          rw [hgb2] at hm
                          cases ob2 with
                          | none => dsimp only at hm; exact absurd hm (by decide)
                          | some ab2 => exact ⟨rfl, by dsimp only; decide⟩
                    · rw [if_neg hl] at hm ⊢
                      dsimp only at hm
                      exact absurd hm (by decide)
  exact ⟨h1, h2, h3, h4, hsync⟩

/-- Witness for the amended C3 at a concrete background environment and a
concrete synchronous submission. -/
theorem relay_no_retries_witness :
    (bg_upload_to_remote ⟨.ok ⟨[2], "text/plain"⟩, .ok (some ⟨3, 4⟩), .error "boom",
        .ok (some ⟨3, 4⟩), .ok ()⟩).2.count .uploadToBucket ≤ 1 ∧
    (bg_upload_to_remote ⟨.ok ⟨[2], "text/plain"⟩, .ok (some ⟨3, 4⟩), .error "boom",
        .ok (some ⟨3, 4⟩), .ok ()⟩).2.count .linkBucketFile ≤ 1 ∧
    (∀ e, (Except.error "boom" : Except String (List BucketFile)) = .error e →
      BgStep.uploadToBucket ∈ (bg_upload_to_remote ⟨.ok ⟨[2], "text/plain"⟩,
        .ok (some ⟨3, 4⟩), .error "boom", .ok (some ⟨3, 4⟩), .ok ()⟩).2 →
      (bg_upload_to_remote ⟨.ok ⟨[2], "text/plain"⟩, .ok (some ⟨3, 4⟩), .error "boom",
        .ok (some ⟨3, 4⟩), .ok ()⟩).1 = .error e ∧
      (bg_upload_to_remote ⟨.ok ⟨[2], "text/plain"⟩, .ok (some ⟨3, 4⟩), .error "boom",
        .ok (some ⟨3, 4⟩), .ok ()⟩).2.count .uploadToBucket = 1) ∧
    (∀ e, (Except.ok () : Except String Unit) = .error e →
      BgStep.linkBucketFile ∈ (bg_upload_to_remote ⟨.ok ⟨[2], "text/plain"⟩,
        .ok (some ⟨3, 4⟩), .error "boom", .ok (some ⟨3, 4⟩), .ok ()⟩).2 →
      (bg_upload_to_remote ⟨.ok ⟨[2], "text/plain"⟩, .ok (some ⟨3, 4⟩), .error "boom",
        .ok (some ⟨3, 4⟩), .ok ()⟩).1 = .error e ∧
      (bg_upload_to_remote ⟨.ok ⟨[2], "text/plain"⟩, .ok (some ⟨3, 4⟩), .error "boom",
        .ok (some ⟨3, 4⟩), .ok ()⟩).2.count .linkBucketFile = 1) ∧
    (submit_intermediate_result_to_hub ⟨101, 3, 32⟩ 5 (fun i => i) "analysisC"
      ⟨[⟨1, 2⟩], ⟨none⟩, .ok [⟨6, "g"⟩]⟩ [9] none).2.count .uploadToBucket ≤ 1 :=
  relay_no_retries ⟨.ok ⟨[2], "text/plain"⟩, .ok (some ⟨3, 4⟩), .error "boom",
    .ok (some ⟨3, 4⟩), .ok ()⟩ ⟨101, 3, 32⟩ 5 (fun i => i) "analysisC"
    ⟨[⟨1, 2⟩], ⟨none⟩, .ok [⟨6, "g"⟩]⟩ [9] none

/-- C4: the background relay removes the local object store copy only after
the link of the uploaded bucket file to the analysis has succeeded: if the
removal step appears in the trace, the link step succeeded and precedes it,
and in every failing run the removal step is absent. -/
theorem bg_upload_remove_only_after_link (env : BgEnv)
    (h : BgStep.removeObject ∈ (bg_upload_to_remote env).2) :
    env.link_result = .ok () ∧
    BgStep.linkBucketFile ∈ (bg_upload_to_remote env).2 ∧
    (bg_upload_to_remote env).1 = .ok () ∧
    (bg_upload_to_remote env).2 =
      [.getObject, .getAnalysisBucket, .uploadToBucket, .getAnalysisBucket,
       .linkBucketFile, .removeObject] := by
  unfold bg_upload_to_remote at h ⊢
  cases hgo : env.get_object with
  | error e => rw [hgo] at h; dsimp only at h; exact absurd h (by decide)
  | ok o =>
      rw [hgo] at h
      cases hgb : env.get_analysis_bucket_fst with
      | error e => rw [hgb] at h; dsimp only at h; exact absurd h (by decide)
      | ok ob =>
          rw [hgb] at h
          cases ob with
          | none => dsimp only at h; exact absurd h (by decide)
          | some ab =>
              cases hup : env.upload_result with
              | error e => rw [hup] at h; dsimp only at h; exact absurd h (by decide)
              | ok lst =>
                  rw [hup] at h
                  dsimp only at h ⊢
                  by_cases hl : lst.length = 1
                  · rw [if_pos hl] at h ⊢
                    cases hgb2 : env.get_analysis_bucket_snd with
                    | error e => rw [hgb2] at h; dsimp only at h; exact absurd h (by decide)
                    | ok ob2 =>
                        rw [hgb2] at h
                        cases ob2 with
                        | none => dsimp only at h; exact absurd h (by decide)
                        | some ab2 =>
                            cases hlk : env.link_result with
                            | error e =>
                                rw [hlk] at h; dsimp only at h; exact absurd h (by decide)
                            | ok u =>
                                cases u
                                exact ⟨rfl, by dsimp only; decide, rfl, rfl⟩
                  · rw [if_neg hl] at h ⊢
                    dsimp only at h
                    exact absurd h (by decide)

/-- Witness for C4 at a concrete fully successful background environment. -/
theorem bg_upload_remove_only_after_link_witness :
    (⟨.ok ⟨[1], "text/plain"⟩, .ok (some ⟨1, 2⟩), .ok [⟨9, "r"⟩], .ok (some ⟨1, 2⟩),
        .ok ()⟩ : BgEnv).link_result = .ok () ∧
    BgStep.linkBucketFile ∈ (bg_upload_to_remote ⟨.ok ⟨[1], "text/plain"⟩,
      .ok (some ⟨1, 2⟩), .ok [⟨9, "r"⟩], .ok (some ⟨1, 2⟩), .ok ()⟩).2 ∧
    (bg_upload_to_remote ⟨.ok ⟨[1], "text/plain"⟩, .ok (some ⟨1, 2⟩), .ok [⟨9, "r"⟩],
        .ok (some ⟨1, 2⟩), .ok ()⟩).1 = .ok () ∧
    (bg_upload_to_remote ⟨.ok ⟨[1], "text/plain"⟩, .ok (some ⟨1, 2⟩), .ok [⟨9, "r"⟩],
        .ok (some ⟨1, 2⟩), .ok ()⟩).2 =
      [.getObject, .getAnalysisBucket, .uploadToBucket, .getAnalysisBucket,
       .linkBucketFile, .removeObject] :=
  bg_upload_remove_only_after_link ⟨.ok ⟨[1], "text/plain"⟩, .ok (some ⟨1, 2⟩),
    .ok [⟨9, "r"⟩], .ok (some ⟨1, 2⟩), .ok ()⟩ (by decide)

/-- C8: when the storage service returns a list of created file records
whose length is not exactly one, the relay fails — the intermediate path
with a 502 error and the background path with an assertion error, in both
cases without linking the object to the analysis — and the object is
linked only when exactly one record is returned. -/
theorem upload_single_record_invariant (C : Curve) (private_key : Nat)
    (entropy : Nat → Nat) (client_id : String) (env : IntermediateEnv)
    (file_content : Bytes) (lst : List BucketFile) (benv : BgEnv)
    (obj : MinioObject) (ab : AnalysisBucket) (blst : List BucketFile)
    (hup : env.upload_result = .ok lst)
    (hbuckets : env.analysis_buckets.length ≠ 0)
    (hgo : benv.get_object = .ok obj)
    (hgb : benv.get_analysis_bucket_fst = .ok (some ab))
    (hbup : benv.upload_result = .ok blst) :
    (lst.length ≠ 1 →
      submit_intermediate_result_to_hub C private_key entropy client_id env file_content
          none =
        (.error ⟨502, "Expected single uploaded file to be returned by storage service, got " ++
            toString lst.length⟩,
         [.findAnalysisBuckets, .uploadToBucket])) ∧
    (∀ bf, lst = [bf] →
      submit_intermediate_result_to_hub C private_key entropy client_id env file_content
          none =
        (.ok bf.id, [.findAnalysisBuckets, .uploadToBucket, .createAnalysisBucketFile])) ∧
    (∀ remote_node_id,
      RemoteCall.createAnalysisBucketFile ∈
        (submit_intermediate_result_to_hub C private_key entropy client_id env file_content
          remote_node_id).2 →
      lst.length = 1) ∧
    (blst.length ≠ 1 →
      (bg_upload_to_remote benv).1 = .error "AssertionError" ∧
      BgStep.linkBucketFile ∉ (bg_upload_to_remote benv).2 ∧
      BgStep.removeObject ∉ (bg_upload_to_remote benv).2) := by
  refine ⟨?_, ?_, ?_, ?_⟩
  · intro hl
    unfold submit_intermediate_result_to_hub
    rw [if_neg hbuckets]
    dsimp only
    unfold upload_and_link
    rw [hup]
    dsimp only
    rcases lst with _ | ⟨bf, _ | ⟨b2, rest⟩⟩
    · rfl
    · simp at hl
    · rfl
  · intro bf hbf
    subst hbf
    unfold submit_intermediate_result_to_hub
    rw [if_neg hbuckets]
    dsimp only
    unfold upload_and_link
    rw [hup]
    rfl
  · intro remote_node_id hm
    unfold submit_intermediate_result_to_hub at hm
    rw [if_neg hbuckets] at hm
    cases remote_node_id with
    | none =>
        dsimp only at hm
        unfold upload_and_link at hm
        rw [hup] at hm
        dsimp only at hm
        rcases lst with _ | ⟨bf, _ | ⟨b2, rest⟩⟩
        · dsimp only at hm; exact absurd hm (by decide)
        · rfl
        · dsimp only at hm; exact absurd hm (by decide)
    | some rid =>
        dsimp only at hm
        cases hk : env.node.public_key with
        | none => rw [hk] at hm; dsimp only at hm; exact absurd hm (by decide)
        | some pk =>
            rw [hk] at hm
            dsimp only at hm
            cases he : encrypt_default C private_key pk entropy file_content with
            | error e => rw [he] at hm; dsimp only at hm; exact absurd hm (by decide)
            | ok sealed =>
                rw [he] at hm
                dsimp only at hm
                unfold upload_and_link at hm
                rw [hup] at hm
                dsimp only at hm
                rcases lst with _ | ⟨bf, _ | ⟨b2, rest⟩⟩
                · dsimp only at hm; exact absurd hm (by decide)
                · rfl
                · dsimp only at hm; exact absurd hm (by decide)
  · intro hbl
    unfold bg_upload_to_remote
    rw [hgo, hgb, hbup]
    dsimp only
    rw [if_neg hbl]
    exact ⟨rfl, by dsimp only; decide, by dsimp only; decide⟩

/-- Witness for C8 at concrete environments: a synchronous upload returning
two records and a background upload returning zero records. -/
theorem upload_single_record_invariant_witness :
    ((([⟨1, "a"⟩, ⟨2, "b"⟩] : List BucketFile).length ≠ 1 →
      submit_intermediate_result_to_hub ⟨101, 3, 32⟩ 5 (fun i => i) "analysisD"
          ⟨[⟨1, 2⟩], ⟨none⟩, .ok [⟨1, "a"⟩, ⟨2, "b"⟩]⟩ [4] none =
        (.error ⟨502, "Expected single uploaded file to be returned by storage service, got " ++
            toString ([⟨1, "a"⟩, ⟨2, "b"⟩] : List BucketFile).length⟩,
         [.findAnalysisBuckets, .uploadToBucket])) ∧
    (∀ bf, ([⟨1, "a"⟩, ⟨2, "b"⟩] : List BucketFile) = [bf] →
      submit_intermediate_result_to_hub ⟨101, 3, 32⟩ 5 (fun i => i) "analysisD"
          ⟨[⟨1, 2⟩], ⟨none⟩, .ok [⟨1, "a"⟩, ⟨2, "b"⟩]⟩ [4] none =
        (.ok bf.id, [.findAnalysisBuckets, .uploadToBucket, .createAnalysisBucketFile])) ∧
    (∀ remote_node_id,
      RemoteCall.createAnalysisBucketFile ∈
        (submit_intermediate_result_to_hub ⟨101, 3, 32⟩ 5 (fun i => i) "analysisD"
          ⟨[⟨1, 2⟩], ⟨none⟩, .ok [⟨1, "a"⟩, ⟨2, "b"⟩]⟩ [4] remote_node_id).2 →
      ([⟨1, "a"⟩, ⟨2, "b"⟩] : List BucketFile).length = 1) ∧
    (([] : List BucketFile).length ≠ 1 →
      (bg_upload_to_remote ⟨.ok ⟨[1], "text/plain"⟩, .ok (some ⟨1, 2⟩), .ok [],
          .ok (some ⟨1, 2⟩), .ok ()⟩).1 = .error "AssertionError" ∧
      BgStep.linkBucketFile ∉ (bg_upload_to_remote ⟨.ok ⟨[1], "text/plain"⟩,
        .ok (some ⟨1, 2⟩), .ok [], .ok (some ⟨1, 2⟩), .ok ()⟩).2 ∧
      BgStep.removeObject ∉ (bg_upload_to_remote ⟨.ok ⟨[1], "text/plain"⟩,
        .ok (some ⟨1, 2⟩), .ok [], .ok (some ⟨1, 2⟩), .ok ()⟩).2)) :=
  upload_single_record_invariant ⟨101, 3, 32⟩ 5 (fun i => i) "analysisD"
    ⟨[⟨1, 2⟩], ⟨none⟩, .ok [⟨1, "a"⟩, ⟨2, "b"⟩]⟩ [4] [⟨1, "a"⟩, ⟨2, "b"⟩]
    ⟨.ok ⟨[1], "text/plain"⟩, .ok (some ⟨1, 2⟩), .ok [], .ok (some ⟨1, 2⟩), .ok ()⟩
    ⟨[1], "text/plain"⟩ ⟨1, 2⟩ [] rfl (by decide) rfl rfl rfl

theorem local_object_key_inj (c1 c2 o1 o2 : List Char)
    (h1 : o1.length = 36) (h2 : o2.length = 36)
    (h : local_object_key c1 o1 = local_object_key c2 o2) : c1 = c2 ∧ o1 = o2 := by
  unfold local_object_key at h
  rw [List.append_assoc, List.append_assoc] at h
  have h3 : c1 ++ ('/' :: o1) = c2 ++ ('/' :: o2) := List.append_cancel_left h
  have h4 : ('/' :: o1).length = ('/' :: o2).length := by
    simp [h1, h2]
  have h5 := List.append_inj' h3 h4
  exact ⟨h5.1, by simpa using h5.2⟩

/-- C9: the local retrieval endpoint reads exactly the object store key
built from the caller identity: its outcome depends only on the store entry
at that key, a write performed for a different client identity is invisible
to the caller even for the same object id, and a missing entry under the
caller key yields a 404. Object ids are canonical UUID strings, 36
characters long. -/
theorem retrieve_local_isolation (store store2 : List Char → Option StoredObject)
    (c1 c2 o1 o2 : List Char) (obj : StoredObject)
    (h1 : o1.length = 36) (h2 : o2.length = 36) (hc : c1 ≠ c2) :
    retrieve_intermediate_result_from_local (store_after_local_submit store c2 o2 obj) c1 o1 =
      retrieve_intermediate_result_from_local store c1 o1 ∧
    (store (local_object_key c1 o1) = none →
      retrieve_intermediate_result_from_local store c1 o1 =
        .error ⟨404, "Object with ID " ++ String.mk o1 ++ " does not exist"⟩) ∧
    (store2 (local_object_key c1 o1) = store (local_object_key c1 o1) →
      retrieve_intermediate_result_from_local store2 c1 o1 =
        retrieve_intermediate_result_from_local store c1 o1) := by
  refine ⟨?_, ?_, ?_⟩
  · have hkey : local_object_key c1 o1 ≠ local_object_key c2 o2 := by
      intro hEq
      exact hc (local_object_key_inj c1 c2 o1 o2 h1 h2 hEq).1
    unfold retrieve_intermediate_result_from_local store_after_local_submit
    rw [if_neg hkey]
  · intro hnone
    unfold retrieve_intermediate_result_from_local
    rw [hnone]
  · intro hsame
    unfold retrieve_intermediate_result_from_local
    rw [hsame]

/-- Witness for C9 at two concrete client identities and a concrete UUID
string object id. -/
theorem retrieve_local_isolation_witness :
    retrieve_intermediate_result_from_local
        (store_after_local_submit (fun _ => none) "clientB".toList
          "123e4567-e89b-12d3-a456-426614174000".toList ⟨[1], "text/plain"⟩)
        "clientA".toList "123e4567-e89b-12d3-a456-426614174000".toList =
      retrieve_intermediate_result_from_local (fun _ => none) "clientA".toList
        "123e4567-e89b-12d3-a456-426614174000".toList ∧
    ((fun _ => (none : Option StoredObject))
        (local_object_key "clientA".toList "123e4567-e89b-12d3-a456-426614174000".toList) =
        none →
      retrieve_intermediate_result_from_local (fun _ => none) "clientA".toList
          "123e4567-e89b-12d3-a456-426614174000".toList =
        .error ⟨404, "Object with ID " ++
          String.mk "123e4567-e89b-12d3-a456-426614174000".toList ++ " does not exist"⟩) ∧
    ((fun _ => (none : Option StoredObject))
        (local_object_key "clientA".toList "123e4567-e89b-12d3-a456-426614174000".toList) =
        (fun _ => (none : Option StoredObject))
          (local_object_key "clientA".toList "123e4567-e89b-12d3-a456-426614174000".toList) →
      retrieve_intermediate_result_from_local (fun _ => none) "clientA".toList
          "123e4567-e89b-12d3-a456-426614174000".toList =
        retrieve_intermediate_result_from_local (fun _ => none) "clientA".toList
          "123e4567-e89b-12d3-a456-426614174000".toList) :=
  retrieve_local_isolation (fun _ => none) (fun _ => none) "clientA".toList "clientB".toList
    "123e4567-e89b-12d3-a456-426614174000".toList
    "123e4567-e89b-12d3-a456-426614174000".toList ⟨[1], "text/plain"⟩
    (by decide) (by decide) (by decide)

theorem get_cmd_zero (c d : Char) (mid : List Char)
    (h : 0 < (c :: (mid ++ [d])).length) :
    (c :: (mid ++ [d])).get ⟨0, h⟩ = c := rfl

theorem get_cmd_last (c d : Char) (mid : List Char)
    (h : mid.length + 1 < (c :: (mid ++ [d])).length) :
    (c :: (mid ++ [d])).get ⟨mid.length + 1, h⟩ = d := by
  simp only [List.get_eq_getElem, List.getElem_cons_succ]
  exact List.getElem_concat_length mid d mid.length rfl (by simp)

theorem get_cmd_mid (c d : Char) (mid : List Char) (j : Nat) (hj : j < mid.length)
    (h : j + 1 < (c :: (mid ++ [d])).length) :
    (c :: (mid ++ [d])).get ⟨j + 1, h⟩ = mid.get ⟨j, hj⟩ := by
  simp only [List.get_eq_getElem, List.getElem_cons_succ]
  exact List.getElem_append_left ..

theorem index_cond_concat (c d : Char) (mid : List Char) :
    (∀ i : Fin (c :: (mid ++ [d])).length,
      ((i.val = 0 ∨ i.val = (c :: (mid ++ [d])).length - 1) →
        isLowerAlnum ((c :: (mid ++ [d])).get i) = true) ∧
      (0 < i.val → i.val < (c :: (mid ++ [d])).length - 1 →
        (isLowerAlnum ((c :: (mid ++ [d])).get i) = true ∨
          (c :: (mid ++ [d])).get i = '-'))) ↔
    (isLowerAlnum c = true ∧ isLowerAlnum d = true ∧
      ∀ x ∈ mid, isLowerAlnumOrHyphen x = true) := by
  have hlen : (c :: (mid ++ [d])).length = mid.length + 2 := by simp
  constructor
  · intro H
    refine ⟨?_, ?_, ?_⟩
    · have h0 := (H ⟨0, by simp⟩).1 (Or.inl rfl)
      rwa [get_cmd_zero] at h0
    · have hlt : mid.length + 1 < (c :: (mid ++ [d])).length := by simp
      have hL := (H ⟨mid.length + 1, hlt⟩).1 (Or.inr (by
        show mid.length + 1 = (c :: (mid ++ [d])).length - 1
        rw [hlen]
        omega))
      rwa [get_cmd_last] at hL
    · intro x hx
      obtain ⟨⟨j, hj⟩, rfl⟩ := List.mem_iff_get.mp hx
      have hlt : j + 1 < (c :: (mid ++ [d])).length := by
        rw [hlen]; omega
      have h2 := (H ⟨j + 1, hlt⟩).2 (by show 0 < j + 1; omega) (by
        show j + 1 < (c :: (mid ++ [d])).length - 1
        rw [hlen]; omega)
      rw [get_cmd_mid c d mid j hj] at h2
      simp only [isLowerAlnumOrHyphen, Bool.or_eq_true, decide_eq_true_eq]
      exact h2
  · rintro ⟨hc, hd, hmid⟩ ⟨iv, hi⟩
    constructor
    · rintro (h0 | hLast)
      · have h0' : iv = 0 := h0
        subst h0'
        rw [get_cmd_zero]; exact hc
      · have hLast' : iv = (c :: (mid ++ [d])).length - 1 := hLast
        rw [hlen] at hLast'
        have hivr : iv = mid.length + 1 := by omega
        subst hivr
        rw [get_cmd_last]; exact hd
    · intro hpos hlt
      have hpos' : 0 < iv := hpos
      have hlt' : iv < (c :: (mid ++ [d])).length - 1 := hlt
      rw [hlen] at hlt'
      obtain ⟨j, rfl⟩ : ∃ j, iv = j + 1 := ⟨iv - 1, by omega⟩
      have hj : j < mid.length := by omega
      rw [get_cmd_mid c d mid j hj]
      have hall := hmid _ (List.get_mem mid j hj)
      simp only [isLowerAlnumOrHyphen, Bool.or_eq_true, decide_eq_true_eq] at hall
      exact hall

theorem tag_alt_long_single (c : Char) : tag_alt_long [c] = false := rfl

theorem tag_alt_long_concat (c d : Char) (mid : List Char) :
    tag_alt_long (c :: (mid ++ [d])) =
      (isLowerAlnum c && isLowerAlnum d && mid.all isLowerAlnumOrHyphen &&
        decide (mid.length ≤ 30)) := by
  simp only [tag_alt_long, List.getLast?_concat, List.dropLast_concat]

theorem is_valid_tag_iff_specTagShape (t : List Char) :
    is_valid_tag t = true ↔ specTagShape t := by
  unfold is_valid_tag specTagShape
  rw [Bool.or_eq_true]
  constructor
  · rintro (hs | hl)
    · left
      unfold tag_alt_short at hs
      simp only [Bool.and_eq_true, decide_eq_true_eq, List.all_eq_true] at hs
      exact ⟨hs.1.1, hs.1.2, hs.2⟩
    · right
      cases t with
      | nil => exact absurd hl (by decide)
      | cons c rest =>
          rcases List.eq_nil_or_concat rest with rfl | ⟨mid, d, rfl⟩
          · rw [tag_alt_long_single] at hl
            exact absurd hl (by decide)
          · rw [List.concat_eq_append, tag_alt_long_concat] at hl
            simp only [Bool.and_eq_true, decide_eq_true_eq, List.all_eq_true] at hl
            obtain ⟨⟨⟨hc, hd⟩, hmid⟩, h30⟩ := hl
            rw [List.concat_eq_append]
            refine ⟨?_, ?_, ?_⟩
            · simp only [List.length_cons, List.length_append, List.length_singleton,
                List.length_nil]
              omega
            · simp only [List.length_cons, List.length_append, List.length_singleton,
                List.length_nil]
              omega
            · exact (index_cond_concat c d mid).mpr ⟨hc, hd, hmid⟩
  · rintro (⟨h1, h2, h3⟩ | ⟨h2, h32, hidx⟩)
    · left
      unfold tag_alt_short
      simp only [Bool.and_eq_true, decide_eq_true_eq, List.all_eq_true]
      exact ⟨⟨h1, h2⟩, h3⟩
    · right
      cases t with
      | nil => simp at h2
      | cons c rest =>
          rcases List.eq_nil_or_concat rest with rfl | ⟨mid, d, rfl⟩
          · simp at h2
          · rw [List.concat_eq_append] at hidx h32 ⊢
            rw [tag_alt_long_concat]
            obtain ⟨hc, hd, hmid⟩ := (index_cond_concat c d mid).mp hidx
            simp only [Bool.and_eq_true, decide_eq_true_eq, List.all_eq_true]
            refine ⟨⟨⟨hc, hd⟩, hmid⟩, ?_⟩
            simp only [List.length_cons, List.length_append, List.length_singleton] at h32
            omega

/-- C10: a local submission with a tag is rejected with a 400 error before
any object store or tag index write exactly when the tag fails the accepted
shape — one or two lowercase alphanumeric characters, or 2 to 32 characters
starting and ending with a lowercase alphanumeric character with only
lowercase alphanumeric characters and hyphens in between — and every tag of
that shape is accepted. -/
theorem local_tag_validation (t : List Char) (env : LocalEnv) :
    (is_valid_tag t = false →
      submit_intermediate_result_to_local (some t) env =
        (.error ⟨400, "Invalid tag `" ++ String.mk t ++ "`"⟩, [])) ∧
    (is_valid_tag t = true →
      LocalWrite.putObject ∈ (submit_intermediate_result_to_local (some t) env).2 ∧
      ∀ d, (submit_intermediate_result_to_local (some t) env).1 ≠ .error ⟨400, d⟩) ∧
    (is_valid_tag t = true ↔ specTagShape t) := by
  refine ⟨?_, ?_, is_valid_tag_iff_specTagShape t⟩
  · intro hv
    unfold submit_intermediate_result_to_local
    dsimp only
    rw [if_neg (by rw [hv]; exact Bool.false_ne_true)]
  · intro hv
    unfold submit_intermediate_result_to_local
    dsimp only
    rw [if_pos hv]
    cases env.project_id with
    | none =>
        refine ⟨by decide, ?_⟩
        intro d heq
        dsimp only at heq
        have := congrArg (fun r => match r with
          | Except.error err => err.status_code
          | Except.ok _ => 0) heq
        simp at this
    | some pid =>
        exact ⟨by dsimp only; decide, by intro d heq; dsimp only at heq; cases heq⟩

/-- Witness for C10 at a concrete invalid tag, a concrete valid tag and a
concrete environment. -/
theorem local_tag_validation_witness :
    (is_valid_tag ['a', '-'] = false →
      submit_intermediate_result_to_local (some ['a', '-']) ⟨some "p"⟩ =
        (.error ⟨400, "Invalid tag `" ++ String.mk ['a', '-'] ++ "`"⟩, [])) ∧
    (is_valid_tag ['a', '-'] = true →
      LocalWrite.putObject ∈
        (submit_intermediate_result_to_local (some ['a', '-']) ⟨some "p"⟩).2 ∧
      ∀ d, (submit_intermediate_result_to_local (some ['a', '-']) ⟨some "p"⟩).1 ≠
        .error ⟨400, d⟩) ∧
    (is_valid_tag ['a', '-'] = true ↔ specTagShape ['a', '-']) :=
  local_tag_validation ['a', '-'] ⟨some "p"⟩

end NodeResultService
